import Mathlib

/-!
Verification of the adsbypasser CI domain checker.

The embedding below translates `src/ci/check-domains.js` (the revision before
the document separator, whose line numbers the claims cite) and the revision
in `src/unnamed/part_000` (namespace `Part000`).  External collaborators —
DNS (`dns.resolve4`/`dns.resolve6`), the network behind `http(s).get`, and
WHATWG URL resolution (`new URL(location, base).toString()`) — are modelled
as oracle functions supplied as parameters, so theorems quantify over every
possible collaborator behaviour.  The redirect-following `while` loop is
embedded as recursion on the remaining redirect budget
(`MAX_REDIRECTS - redirects`), which is exactly the loop variant of the
source.  To settle call-count claims, the probe functions additionally
return the list of URLs passed to the fetch collaborator, in order; the
first component is the status the JS code computes.
-/

/-- The closed status enumeration (the keys of `STATUS_ICONS`,
`src/ci/check-domains.js` lines 53-68). -/
inductive Status where
  | VALID
  | PLACEHOLDER
  | EMPTY_PAGE
  | JS_ONLY
  | CLIENT_ERROR
  | SERVER_ERROR
  | INVALID_SSL
  | EXPIRED
  | UNREACHABLE
  | REFUSED
  | TIMEOUT
  | REDIRECT_LOOP
  | PROTECTED
  | UNKNOWN
  deriving DecidableEq, Repr

/- ------------------ string utilities (JS semantics) ------------------ -/

/-- Case-sensitive prefix test on character lists. -/
def matchesAt (pat s : List Char) : Bool :=
  match pat, s with
  | [], _ => true
  | _ :: _, [] => false
  | p :: ps, c :: cs => p = c && matchesAt ps cs

/-- Case-insensitive prefix test (models the `i` regex flag). -/
def matchesAtCI (pat s : List Char) : Bool :=
  match pat, s with
  | [], _ => true
  | _ :: _, [] => false
  | p :: ps, c :: cs => p.toLower = c.toLower && matchesAtCI ps cs

def containsSubAux (pat : List Char) : List Char → Bool
  | [] => matchesAt pat []
  | c :: rest => matchesAt pat (c :: rest) || containsSubAux pat rest

/-- JS `hay.includes(pat)`: substring containment. -/
def containsSub (hay pat : String) : Bool :=
  containsSubAux pat.toList hay.toList

/-- JS regex `\s` class (the characters relevant to this code base). -/
def isJsSpace (c : Char) : Bool :=
  c = ' ' || c = '\t' || c = '\n' || c = '\r' || c = '\x0b' || c = '\x0c' || c = '\u00A0'

/-- JS `s.replace(/\s/g, "")`. -/
def stripWs (s : String) : String :=
  String.mk (s.toList.filter (fun c => !isJsSpace c))

def dropLeadingWs : List Char → List Char
  | [] => []
  | c :: rest => if isJsSpace c then dropLeadingWs rest else c :: rest

/-- JS `s.trim()`. -/
def trimJs (s : List Char) : List Char :=
  ((dropLeadingWs (dropLeadingWs s).reverse)).reverse

/-- Consume characters up to and including the first `>` — the `[^>]*>` part
of the open-tag regexes.  `none` when no `>` remains (the regex fails). -/
def consumeToGt : List Char → Option (List Char)
  | [] => none
  | c :: rest => if c = '>' then some rest else consumeToGt rest

/-- Match `<tag[^>]*>` (case-insensitively) at the head of `s`; returns the
remainder after the `>`. -/
def afterOpenTag (tag : List Char) (s : List Char) : Option (List Char) :=
  if matchesAtCI ('<' :: tag) s then consumeToGt (s.drop (tag.length + 1)) else none

/-- Split at the earliest case-insensitive occurrence of `pat`: returns the
characters before the match and the remainder after it (the lazy `[\s\S]*?`
followed by the closing tag). -/
def splitAtCloseCI (pat : List Char) : List Char → Option (List Char × List Char)
  | [] => none
  | c :: rest =>
    if matchesAtCI pat (c :: rest) then some ([], (c :: rest).drop pat.length)
    else
      match splitAtCloseCI pat rest with
      | some (pre, post) => some (c :: pre, post)
      | none => none

/-- The closing tag `</tag>`. -/
def closeTagOf (tag : List Char) : List Char :=
  '<' :: '/' :: (tag ++ ['>'])

/-- One global left-to-right scan of `s.replace(/<tag[^>]*>[\s\S]*?<\/tag>/gi, "")`.
Each recursive call consumes at least one character, so `fuel = s.length`
(supplied by `stripBlocks`) always suffices; the `fuel = 0` branch is
unreachable for that choice. -/
def stripBlocksAux (tag : List Char) : Nat → List Char → List Char
  | 0, _ => []
  | _ + 1, [] => []
  | fuel + 1, c :: rest =>
    match afterOpenTag tag (c :: rest) with
    | some afterOpen =>
      match splitAtCloseCI (closeTagOf tag) afterOpen with
      | some (_, rest2) => stripBlocksAux tag fuel rest2
      | none => c :: stripBlocksAux tag fuel rest
    | none => c :: stripBlocksAux tag fuel rest

/-- JS `body.replace(/<tag[^>]*>[\s\S]*?<\/tag>/gi, "")`. -/
def stripBlocks (tag : String) (s : String) : String :=
  String.mk (stripBlocksAux tag.toList s.toList.length s.toList)

/-- One global scan of `body.matchAll(/<script[^>]*>([\s\S]*?)<\/script>/gi)`,
concatenating capture group 1 of every match.  Fuel as in `stripBlocksAux`. -/
def collectScriptsAux : Nat → List Char → List Char
  | 0, _ => []
  | _ + 1, [] => []
  | fuel + 1, c :: rest =>
    match afterOpenTag "script".toList (c :: rest) with
    | some afterOpen =>
      match splitAtCloseCI (closeTagOf "script".toList) afterOpen with
      | some (inner, rest2) => inner ++ collectScriptsAux fuel rest2
      | none => collectScriptsAux fuel rest
    | none => collectScriptsAux fuel rest

def collectScripts (s : String) : List Char :=
  collectScriptsAux s.toList.length s.toList

/-- `src/ci/check-domains.js` lines 131-134: the body with `<head>` blocks,
`<noscript>` blocks and all whitespace removed. -/
def strippedOf (body : String) : String :=
  stripWs (stripBlocks "noscript" (stripBlocks "head" body))

/-- Lines 137-138: the concatenated, trimmed inner content of all
`<script>` elements of the (unstripped) body. -/
def scriptContentOf (body : String) : String :=
  String.mk (trimJs (collectScripts body))

/-- `isEmptyOrJsOnly` (`src/ci/check-domains.js` lines 127-144).  The JS
function returns the string `"EMPTY_PAGE"` / `"JS_ONLY"` or `false`; the
caller only tests truthiness, so `Option Status` is a faithful rendering. -/
def isEmptyOrJsOnly (body : String) : Option Status :=
  if body = "" then some Status.EMPTY_PAGE
  else
    let stripped := strippedOf body
    let scriptContent := scriptContentOf body
    if stripped = "" && !(scriptContent = "") then some Status.JS_ONLY
    else if stripped.length = 0 then some Status.EMPTY_PAGE
    else none

/- ------------------ configuration tables ------------------ -/

/-- `src/ci/check-domains.js` line 26. -/
def MAX_REDIRECTS : Nat := 5

/-- Lines 30-36. -/
def PLACEHOLDER_PATTERNS : List String :=
  ["Welcome to nginx!", "This domain is parked", "Buy this domain",
   "Domain for sale", "Default PLESK Page"]

/-- Lines 38-42. -/
def WAF_PATTERNS : List String :=
  ["Attention Required! | Cloudflare", "Checking your browser before accessing",
   "DDOS protection by"]

/-- Lines 44-51. -/
def ERROR_PAGE_PATTERNS : List String :=
  ["Error 521", "Error 522", "Error 523", "Error 524", "Error 525",
   "Service Temporarily Unavailable"]

/- ------------------ fetch model ------------------ -/

/-- What the network does for one URL: the timeout timer fires, the request
errors with a Node error code, or a response arrives.  `location` is the
`Location` header (`none` when absent); `body` is the accumulated body
prefix (the source caps it at 8 KB while accumulating chunks). -/
inductive NetEvent where
  | timeoutEv
  | errEv (code : String)
  | respEv (statusCode : Nat) (location : Option String) (body : String)

/-- What `fetchUrl` resolves with: a low-level failure tag or a response. -/
inductive FetchResult where
  | failure (s : Status)
  | response (statusCode : Nat) (location : Option String) (body : String)

/-- `fetchUrl` (`src/ci/check-domains.js` lines 91-124): maps the network
event for `url` to the object the promise resolves with. -/
def fetchUrl (net : String → NetEvent) (url : String) : FetchResult :=
  match net url with
  | NetEvent.timeoutEv => FetchResult.failure Status.TIMEOUT
  | NetEvent.errEv code =>
    if code = "ECONNREFUSED" || code = "ENOTFOUND" || code = "EHOSTUNREACH" then
      FetchResult.failure Status.REFUSED
    else if code = "CERT_HAS_EXPIRED" || code = "DEPTH_ZERO_SELF_SIGNED_CERT" then
      FetchResult.failure Status.INVALID_SSL
    else FetchResult.failure Status.UNREACHABLE
  | NetEvent.respEv sc loc body => FetchResult.response sc loc body

/-- JS truthiness of `headers.location`: present and non-empty. -/
def locTruthy : Option String → Bool
  | none => false
  | some s => decide (¬ s = "")

/-- The string carried by a truthy `Location` header (only ever read under
`locTruthy loc = true`). -/
def locVal : Option String → String
  | none => ""
  | some s => s

/- ------------------ domain check (primary revision) ------------------ -/

/-- Body classification of a non-redirect, non-error response
(`src/ci/check-domains.js` lines 186-216, in source order: empty/JS-only,
Cloudflare error wrapper, Cloudflare Ray ID / WAF, placeholder, valid). -/
def classifyBody (body : String) : Status :=
  match isEmptyOrJsOnly body with
  | some e => e
  | none =>
    if containsSub body "id=\"cf-wrapper\"" && containsSub body "id=\"cf-error-details\"" then
      if ERROR_PAGE_PATTERNS.any (fun p => containsSub body p) then Status.SERVER_ERROR
      else Status.PROTECTED
    else if containsSub body "Cloudflare Ray ID"
        || WAF_PATTERNS.any (fun p => containsSub body p) then Status.PROTECTED
    else if PLACEHOLDER_PATTERNS.any (fun p => containsSub body p) then Status.PLACEHOLDER
    else Status.VALID

/-- The `while (redirects < MAX_REDIRECTS)` loop of `checkDomainStatus`
(`src/ci/check-domains.js` lines 155-220), recursing on the remaining budget
`fuel = MAX_REDIRECTS - redirects`.  `resolve loc base` is the collaborator
`new URL(loc, base).toString()`.  Second component: the URLs passed to
`fetchUrl`, in order.  The `fuel = 0` case is the loop exiting on its guard
(line 220: `return "REDIRECT_LOOP"`). -/
def runAttempt (fetch : String → FetchResult) (resolve : String → String → String) :
    Nat → List String → String → Status × List String
  | 0, _, _ => (Status.REDIRECT_LOOP, [])
  | fuel + 1, visited, url =>
    if url ∈ visited then (Status.REDIRECT_LOOP, [])
    else
      match fetch url with
      | FetchResult.failure s => (s, [url])
      | FetchResult.response sc loc body =>
        if 500 ≤ sc then (Status.SERVER_ERROR, [url])
        else if 400 ≤ sc then (Status.CLIENT_ERROR, [url])
        else if 300 ≤ sc ∧ sc < 400 ∧ locTruthy loc = true then
          let r := runAttempt fetch resolve fuel (url :: visited) (resolve (locVal loc) url)
          (r.1, url :: r.2)
        else (classifyBody body, [url])

/-- `checkDomainStatus` (`src/ci/check-domains.js` lines 148-225).  The body
of `for (const protocol of ["https", "http"])` always returns (every path
through the `while` loop returns, and so does line 220 after it), so only
the `"https"` iteration executes; the `"http"` iteration and the final
`return "UNREACHABLE"` (line 224) are dead code in this revision. -/
def checkDomainStatus (net : String → NetEvent) (resolve : String → String → String)
    (domain : String) : Status × List String :=
  runAttempt (fetchUrl net) resolve MAX_REDIRECTS [] ("https://" ++ domain)

/-- `isDomainResolvable` (lines 73-88): IPv4 first, IPv6 on failure.  The
oracles return `false` when the corresponding `dns.resolve` call throws. -/
def isDomainResolvable (dns4 dns6 : String → Bool) (domain : String) : Bool :=
  dns4 domain || dns6 domain

/-- The record `checkDomain` returns (lines 231 and 235). -/
structure DomainResult where
  domain : String
  status : Status
  resolvable : Bool
  accessible : Bool
  deriving DecidableEq, Repr

/-- `checkDomain` (`src/ci/check-domains.js` lines 227-236).  Second
component: every URL passed to the fetch collaborator during the check. -/
def checkDomain (dns4 dns6 : String → Bool) (net : String → NetEvent)
    (resolve : String → String → String) (domain : String) : DomainResult × List String :=
  if isDomainResolvable dns4 dns6 domain then
    let r := checkDomainStatus net resolve domain
    ({ domain := domain, status := r.1, resolvable := true,
       accessible := decide (r.1 = Status.VALID) }, r.2)
  else
    ({ domain := domain, status := Status.EXPIRED, resolvable := false,
       accessible := false }, [])

/- ------------------ part_000 revision ------------------ -/

namespace Part000

/-- `src/unnamed/part_000` lines 46-54: this revision's error-page pattern
list additionally contains `"Cloudflare Ray ID"`. -/
def ERROR_PAGE_PATTERNS : List String :=
  ["Error 521", "Error 522", "Error 523", "Error 524", "Error 525",
   "Service Temporarily Unavailable", "Cloudflare Ray ID"]

/-- One fetch in `isDomainAccessible`: timeout event, `error` event with a
Node error code, or a response. -/
inductive Outcome where
  | timeoutEv
  | errEv (code : String)
  | respEv (statusCode : Nat) (location : Option String) (body : String)

/-- The `req.on("error", ...)` handler (`src/unnamed/part_000` lines
163-176): note the certificate codes map to `INVALID_SSL` only for the
`https` attempt. -/
def errStatus (isHttps : Bool) (code : String) : Status :=
  if isHttps && (code = "CERT_HAS_EXPIRED" || code = "DEPTH_ZERO_SELF_SIGNED_CERT") then
    Status.INVALID_SSL
  else if code = "ECONNREFUSED" then Status.REFUSED
  else if code = "ETIMEDOUT" then Status.TIMEOUT
  else Status.UNREACHABLE

/-- Body inspection of `isDomainAccessible` (`src/unnamed/part_000` lines
150-158): error-page patterns, then `strippedBody.length < 50`, then
placeholder, then WAF patterns. -/
def classifyBody000 (body : String) : Status :=
  let strippedBody := stripWs body
  if ERROR_PAGE_PATTERNS.any (fun p => containsSub body p) then Status.SERVER_ERROR
  else if strippedBody.length < 50 then Status.EMPTY_PAGE
  else if PLACEHOLDER_PATTERNS.any (fun p => containsSub body p) then Status.PLACEHOLDER
  else if WAF_PATTERNS.any (fun p => containsSub body p) then Status.PROTECTED
  else Status.VALID

/-- The `while (redirects < MAX_REDIRECTS)` loop of one protocol attempt
(`src/unnamed/part_000` lines 107-186), inside the `try`.  The fetch oracle
returns `Except.error ()` when this iteration raises synchronously (the
`new URL(url)` constructor, line 115), which aborts the whole attempt; the
exception is caught by the enclosing `catch`.  In this revision the redirect
check (line 140) precedes the 5xx/4xx checks. -/
def attempt (fetch : String → Except Unit Outcome) (resolve : String → String → String)
    (isHttps : Bool) : Nat → List String → String → Except Unit (Status × List String)
  | 0, _, _ => Except.ok (Status.REDIRECT_LOOP, [])
  | fuel + 1, visited, url =>
    if url ∈ visited then Except.ok (Status.REDIRECT_LOOP, [])
    else
      match fetch url with
      | Except.error e => Except.error e
      | Except.ok Outcome.timeoutEv => Except.ok (Status.TIMEOUT, [url])
      | Except.ok (Outcome.errEv code) => Except.ok (errStatus isHttps code, [url])
      | Except.ok (Outcome.respEv sc loc body) =>
        if 300 ≤ sc ∧ sc < 400 ∧ locTruthy loc = true then
          match attempt fetch resolve isHttps fuel (url :: visited) (resolve (locVal loc) url) with
          | Except.error e => Except.error e
          | Except.ok r => Except.ok (r.1, url :: r.2)
        else if 500 ≤ sc then Except.ok (Status.SERVER_ERROR, [url])
        else if 400 ≤ sc then Except.ok (Status.CLIENT_ERROR, [url])
        else Except.ok (classifyBody000 body, [url])

/-- `isDomainAccessible` (`src/unnamed/part_000` lines 102-193): try
`https`; if the attempt throws, `catch { continue }` moves on to `http`;
if that throws too, fall through to `return "UNREACHABLE"` (line 192). -/
def isDomainAccessible (fetch : String → Except Unit Outcome)
    (resolve : String → String → String) (domain : String) : Status × List String :=
  match attempt fetch resolve true MAX_REDIRECTS [] ("https://" ++ domain) with
  | Except.ok r => r
  | Except.error _ =>
    match attempt fetch resolve false MAX_REDIRECTS [] ("http://" ++ domain) with
    | Except.ok r => r
    | Except.error _ => (Status.UNREACHABLE, [])

/-- `checkDomain` (`src/unnamed/part_000` lines 200-206). -/
def checkDomain (dns4 dns6 : String → Bool) (fetch : String → Except Unit Outcome)
    (resolve : String → String → String) (domain : String) : DomainResult × List String :=
  if dns4 domain || dns6 domain then
    let r := isDomainAccessible fetch resolve domain
    ({ domain := domain, status := r.1, resolvable := true,
       accessible := decide (r.1 = Status.VALID) }, r.2)
  else
    ({ domain := domain, status := Status.EXPIRED, resolvable := false,
       accessible := false }, [])

end Part000

/- ------------------ concrete collaborators for witnesses ------------------ -/

/-- DNS oracle for which every lookup throws. -/
def dnsNo : String → Bool := fun _ => false

/-- DNS oracle for which every lookup succeeds. -/
def dnsYes : String → Bool := fun _ => true

/-- URL resolution sending every `Location` back to the base URL. -/
def resolveBack : String → String → String := fun _ base => base

/-- URL resolution producing a fresh URL on every hop. -/
def resolveAppend : String → String → String := fun loc base => base ++ loc

/-- A network that answers every URL with the same response. -/
def netResp (sc : Nat) (loc : Option String) (body : String) : String → NetEvent :=
  fun _ => NetEvent.respEv sc loc body

def cfHiddenBody : String :=
  "<head>id=\"cf-wrapper\" id=\"cf-error-details\" Error 521</head>"

def cfVisibleBody : String :=
  "id=\"cf-wrapper\" id=\"cf-error-details\" Error 521"

def parkedBody : String := "This domain is parked"

def emptyBody : String := "<head>x</head>  "

def jsOnlyBody : String := "<head><script>x=1</script></head>"

def plainBody : String := "<html><body>Welcome</body></html>"

def part000GoodBody : String :=
  "<html><body>Welcome friends, this page has plenty of genuine textual content.</body></html>"

/-- part_000 fetch oracle: the `https` attempt throws, the `http` attempt
yields a plain 200. -/
def fetch000HttpOnly : String → Except Unit Part000.Outcome := fun u =>
  if u = "http://fallback.example" then
    Except.ok (Part000.Outcome.respEv 200 none part000GoodBody)
  else Except.error ()

/-- part_000 fetch oracle: every attempt throws. -/
def fetch000None : String → Except Unit Part000.Outcome := fun _ => Except.error ()

/-- The URL the redirect chain reaches after `i` hops starting from `u`. -/
def nextUrl (resolve : String → String → String) (ell : String → String) (u : String) :
    String :=
  resolve (ell u) u

def iterUrl (resolve : String → String → String) (ell : String → String) :
    Nat → String → String
  | 0, u => u
  | i + 1, u => iterUrl resolve ell i (nextUrl resolve ell u)

def ellX : String → String := fun _ => "x"

def bdyNil : String → String := fun _ => ""

/- ------------------ theorems ------------------ -/

/-- Claim C1: a domain failing both IPv4 and IPv6 DNS resolution is
classified `{status := EXPIRED, resolvable := false, accessible := false}`
and the fetch collaborator is never invoked (empty trace). -/
theorem c1_expired_no_fetch (dns4 dns6 : String → Bool) (net : String → NetEvent)
    (resolve : String → String → String) (d : String)
    (h4 : dns4 d = false) (h6 : dns6 d = false) :
    checkDomain dns4 dns6 net resolve d =
      ({ domain := d, status := Status.EXPIRED, resolvable := false,
         accessible := false }, []) := by
  simp [checkDomain, isDomainResolvable, h4, h6]

theorem c1_witness :
    checkDomain dnsNo dnsNo (netResp 200 none "") resolveBack "dead.example" =
      ({ domain := "dead.example", status := Status.EXPIRED, resolvable := false,
         accessible := false }, []) :=
  c1_expired_no_fetch dnsNo dnsNo (netResp 200 none "") resolveBack "dead.example" rfl rfl

/-- Claim C2: for every input domain and every behaviour of the DNS, network
and URL-resolution collaborators, the returned record satisfies
`accessible = true` iff `status = VALID`. -/
theorem c2_accessible_iff_valid (dns4 dns6 : String → Bool) (net : String → NetEvent)
    (resolve : String → String → String) (d : String) :
    (checkDomain dns4 dns6 net resolve d).1.accessible = true ↔
      (checkDomain dns4 dns6 net resolve d).1.status = Status.VALID := by
  unfold checkDomain
  by_cases h : isDomainResolvable dns4 dns6 d
  · simp [h]
  · simp [h]

/-- Loop-guard exit (`while` condition false): `return "REDIRECT_LOOP"`. -/
theorem runAttempt_zero (fetch : String → FetchResult) (resolve : String → String → String)
    (visited : List String) (url : String) :
    runAttempt fetch resolve 0 visited url = (Status.REDIRECT_LOOP, []) := rfl

/-- Line 156: a visited URL terminates the attempt before any fetch. -/
theorem runAttempt_visited (fetch : String → FetchResult) (resolve : String → String → String)
    (n : Nat) (visited : List String) (url : String) (hv : url ∈ visited) :
    runAttempt fetch resolve (n + 1) visited url = (Status.REDIRECT_LOOP, []) := by
  simp [runAttempt, hv]

/-- Lines 164-167: a low-level fetch failure propagates as the status. -/
theorem runAttempt_failure (fetch : String → FetchResult) (resolve : String → String → String)
    (n : Nat) (visited : List String) (url : String) (s : Status)
    (hv : url ∉ visited) (hf : fetch url = FetchResult.failure s) :
    runAttempt fetch resolve (n + 1) visited url = (s, [url]) := by
  simp [runAttempt, hv, hf]

/-- Lines 169-172: `statusCode >= 500`. -/
theorem runAttempt_server (fetch : String → FetchResult) (resolve : String → String → String)
    (n : Nat) (visited : List String) (url : String) (sc : Nat) (loc : Option String)
    (body : String) (hv : url ∉ visited) (hf : fetch url = FetchResult.response sc loc body)
    (h5 : 500 ≤ sc) :
    runAttempt fetch resolve (n + 1) visited url = (Status.SERVER_ERROR, [url]) := by
  simp [runAttempt, hv, hf, h5]

/-- Lines 173-176: `statusCode >= 400`. -/
theorem runAttempt_client (fetch : String → FetchResult) (resolve : String → String → String)
    (n : Nat) (visited : List String) (url : String) (sc : Nat) (loc : Option String)
    (body : String) (hv : url ∉ visited) (hf : fetch url = FetchResult.response sc loc body)
    (h5 : ¬ 500 ≤ sc) (h4 : 400 ≤ sc) :
    runAttempt fetch resolve (n + 1) visited url = (Status.CLIENT_ERROR, [url]) := by
  simp [runAttempt, hv, hf, h5, h4]

/-- Lines 179-184: a 3xx response with a truthy `Location` is followed. -/
theorem runAttempt_redirect (fetch : String → FetchResult) (resolve : String → String → String)
    (n : Nat) (visited : List String) (url : String) (sc : Nat) (l body : String)
    (hv : url ∉ visited) (hf : fetch url = FetchResult.response sc (some l) body)
    (h3 : 300 ≤ sc) (h3' : sc < 400) (hl : ¬ l = "") :
    runAttempt fetch resolve (n + 1) visited url =
      ((runAttempt fetch resolve n (url :: visited) (resolve l url)).1,
       url :: (runAttempt fetch resolve n (url :: visited) (resolve l url)).2) := by
  have h5 : ¬ 500 ≤ sc := by omega
  have h4 : ¬ 400 ≤ sc := by omega
  simp [runAttempt, hv, hf, h5, h4, h3, h3', locTruthy, locVal, hl]

/-- Lines 186-216: a non-redirect, non-error response is classified by its
body. -/
theorem runAttempt_content (fetch : String → FetchResult) (resolve : String → String → String)
    (n : Nat) (visited : List String) (url : String) (sc : Nat) (loc : Option String)
    (body : String) (hv : url ∉ visited) (hf : fetch url = FetchResult.response sc loc body)
    (h5 : ¬ 500 ≤ sc) (h4 : ¬ 400 ≤ sc)
    (hnr : ¬ (300 ≤ sc ∧ sc < 400 ∧ locTruthy loc = true)) :
    runAttempt fetch resolve (n + 1) visited url = (classifyBody body, [url]) := by
  simp [runAttempt, hv, hf, h5, h4, hnr]

/-- Trace invariant of one protocol attempt: the fetched URLs are pairwise
distinct, none of them was already in `visited`, and at most `fuel` fetches
happen. -/
theorem runAttempt_trace (fetch : String → FetchResult) (resolve : String → String → String) :
    ∀ (fuel : Nat) (visited : List String) (url : String),
      (runAttempt fetch resolve fuel visited url).2.Nodup ∧
      (∀ v ∈ (runAttempt fetch resolve fuel visited url).2, v ∉ visited) ∧
      (runAttempt fetch resolve fuel visited url).2.length ≤ fuel := by
  intro fuel
  induction fuel with
  | zero =>
    intro visited url
    simp [runAttempt_zero]
  | succ n ih =>
    intro visited url
    by_cases hv : url ∈ visited
    · simp [runAttempt_visited fetch resolve n visited url hv]
    · cases hf : fetch url with
      | failure s =>
        simp [runAttempt_failure fetch resolve n visited url s hv hf, hv]
      | response sc loc body =>
        by_cases h5 : 500 ≤ sc
        · simp [runAttempt_server fetch resolve n visited url sc loc body hv hf h5, hv]
        · by_cases h4 : 400 ≤ sc
          · simp [runAttempt_client fetch resolve n visited url sc loc body hv hf h5 h4, hv]
          · by_cases hr : 300 ≤ sc ∧ sc < 400 ∧ locTruthy loc = true
            · obtain ⟨h3, h3', hlt⟩ := hr
              obtain ⟨l, hloc⟩ : ∃ l, loc = some l := by
                cases loc with
                | none => simp [locTruthy] at hlt
                | some l => exact ⟨l, rfl⟩
              subst hloc
              have hl : ¬ l = "" := by
                simpa [locTruthy] using hlt
              rw [runAttempt_redirect fetch resolve n visited url sc l body hv hf h3 h3' hl]
              obtain ⟨ihn, ihf, ihl⟩ := ih (url :: visited) (resolve l url)
              refine ⟨?_, ?_, ?_⟩
              · refine List.nodup_cons.mpr ⟨?_, ihn⟩
                intro hmem
                exact (ihf url hmem) (List.mem_cons_self url visited)
              · intro v hvmem
                rcases List.mem_cons.mp hvmem with h | h
                · exact h ▸ hv
                · intro hvis
                  exact (ihf v h) (List.mem_cons_of_mem url hvis)
              · simpa using Nat.succ_le_succ ihl
            · simp [runAttempt_content fetch resolve n visited url sc loc body hv hf h5 h4 hr, hv]

/-- Claim C10: within the single protocol attempt `checkDomainStatus`
performs, each URL is fetched at most once (the recorded fetch trace has no
duplicates), at most `MAX_REDIRECTS + 1 = 6` fetches happen in total — the
loop in fact performs at most 5, which is within the claimed bound — and the
loop always terminates with a status (the embedding is a total function,
recursing on the strictly decreasing redirect budget). -/
theorem c10_fetch_resources (net : String → NetEvent) (resolve : String → String → String)
    (d : String) :
    (checkDomainStatus net resolve d).2.Nodup ∧
    (checkDomainStatus net resolve d).2.length ≤ MAX_REDIRECTS + 1 := by
  obtain ⟨hnd, _, hlen⟩ :=
    runAttempt_trace (fetchUrl net) resolve MAX_REDIRECTS [] ("https://" ++ d)
  exact ⟨hnd, Nat.le_trans hlen (Nat.le_succ MAX_REDIRECTS)⟩

/-- Lifting: for a resolvable domain, `checkDomain` wraps the result of
`checkDomainStatus` (lines 234-235). -/
theorem checkDomain_resolved (dns4 dns6 : String → Bool) (net : String → NetEvent)
    (resolve : String → String → String) (d : String) (h : dns4 d = true) :
    checkDomain dns4 dns6 net resolve d =
      ({ domain := d, status := (checkDomainStatus net resolve d).1, resolvable := true,
         accessible := decide ((checkDomainStatus net resolve d).1 = Status.VALID) },
       (checkDomainStatus net resolve d).2) := by
  simp [checkDomain, isDomainResolvable, h]

/-- If every fetch yields a 302 with a truthy `Location`, a protocol attempt
always ends in `REDIRECT_LOOP`, with at most `fuel` fetches. -/
theorem always_redirect_loop (net : String → NetEvent) (resolve : String → String → String)
    (ell bdy : String → String)
    (hnet : ∀ u, net u = NetEvent.respEv 302 (some (ell u)) (bdy u))
    (hne : ∀ u, ¬ ell u = "") :
    ∀ fuel visited url,
      (runAttempt (fetchUrl net) resolve fuel visited url).1 = Status.REDIRECT_LOOP ∧
      (runAttempt (fetchUrl net) resolve fuel visited url).2.length ≤ fuel := by
  intro fuel
  induction fuel with
  | zero =>
    intro visited url
    simp [runAttempt_zero]
  | succ n ih =>
    intro visited url
    by_cases hv : url ∈ visited
    · simp [runAttempt_visited (fetchUrl net) resolve n visited url hv]
    · have hf : fetchUrl net url = FetchResult.response 302 (some (ell url)) (bdy url) := by
        simp [fetchUrl, hnet url]
      rw [runAttempt_redirect (fetchUrl net) resolve n visited url 302 (ell url) (bdy url)
        hv hf (by omega) (by omega) (hne url)]
      obtain ⟨ih1, ih2⟩ := ih (url :: visited) (resolve (ell url) url)
      exact ⟨ih1, by simpa using Nat.succ_le_succ ih2⟩

/-- Claim C4: against a server that answers every fetch with a 302 carrying
a (truthy) `Location` header — in particular one whose `Location` always
resolves to an already-visited URL — `classify` returns `REDIRECT_LOOP`,
after at most `MAX_REDIRECTS = 5` fetches (hence at most 5 redirect hops),
not more. -/
theorem c4_redirect_loop (dns4 dns6 : String → Bool) (net : String → NetEvent)
    (resolve : String → String → String) (ell bdy : String → String) (d : String)
    (hres : dns4 d = true)
    (hnet : ∀ u, net u = NetEvent.respEv 302 (some (ell u)) (bdy u))
    (hne : ∀ u, ¬ ell u = "") :
    (checkDomain dns4 dns6 net resolve d).1.status = Status.REDIRECT_LOOP ∧
    (checkDomain dns4 dns6 net resolve d).2.length ≤ MAX_REDIRECTS := by
  rw [checkDomain_resolved dns4 dns6 net resolve d hres]
  obtain ⟨h1, h2⟩ :=
    always_redirect_loop net resolve ell bdy hnet hne MAX_REDIRECTS [] ("https://" ++ d)
  exact ⟨h1, h2⟩

theorem c4_witness :
    (checkDomain dnsYes dnsYes (netResp 302 (some "#") "") resolveBack "loop.example").1.status
        = Status.REDIRECT_LOOP ∧
    (checkDomain dnsYes dnsYes (netResp 302 (some "#") "") resolveBack "loop.example").2.length
        ≤ MAX_REDIRECTS :=
  c4_redirect_loop dnsYes dnsYes (netResp 302 (some "#") "") resolveBack
    (fun _ => "#") (fun _ => "") "loop.example" rfl (fun _ => rfl)
    (fun _ => by show ¬ "#" = ""; decide)

theorem iterUrl_succ_right (resolve : String → String → String) (ell : String → String) :
    ∀ (i : Nat) (u : String),
      iterUrl resolve ell (i + 1) u = nextUrl resolve ell (iterUrl resolve ell i u) := by
  intro i
  induction i with
  | zero => intro u; rfl
  | succ n ih =>
    intro u
    show iterUrl resolve ell (n + 1) (nextUrl resolve ell u) = _
    rw [ih (nextUrl resolve ell u)]
    rfl

/-- If every fetch yields a 302 with a truthy `Location` and the first
`fuel` URLs of the redirect chain are fresh (not visited, pairwise
distinct), the attempt fetches exactly that chain and ends in
`REDIRECT_LOOP` on the exhausted counter. -/
theorem fresh_redirect_chain (net : String → NetEvent) (resolve : String → String → String)
    (ell bdy : String → String)
    (hnet : ∀ u, net u = NetEvent.respEv 302 (some (ell u)) (bdy u))
    (hne : ∀ u, ¬ ell u = "") :
    ∀ fuel visited url,
      (∀ i, i < fuel → iterUrl resolve ell i url ∉ visited) →
      (∀ i j, i < j → j < fuel →
        iterUrl resolve ell i url ≠ iterUrl resolve ell j url) →
      runAttempt (fetchUrl net) resolve fuel visited url =
        (Status.REDIRECT_LOOP, (List.range fuel).map (fun i => iterUrl resolve ell i url)) := by
  intro fuel
  induction fuel with
  | zero =>
    intro visited url _ _
    simp [runAttempt_zero]
  | succ n ih =>
    intro visited url hf1 hf2
    have hv : url ∉ visited := by
      have h := hf1 0 (Nat.succ_pos n)
      simpa [iterUrl] using h
    have hf : fetchUrl net url = FetchResult.response 302 (some (ell url)) (bdy url) := by
      simp [fetchUrl, hnet url]
    rw [runAttempt_redirect (fetchUrl net) resolve n visited url 302 (ell url) (bdy url)
      hv hf (by omega) (by omega) (hne url)]
    have hf1' : ∀ i, i < n →
        iterUrl resolve ell i (nextUrl resolve ell url) ∉ url :: visited := by
      intro i hi
      have heq : iterUrl resolve ell i (nextUrl resolve ell url)
          = iterUrl resolve ell (i + 1) url := rfl
      rw [heq]
      intro hmem
      rcases List.mem_cons.mp hmem with h | h
      · exact hf2 0 (i + 1) (Nat.succ_pos i) (by omega) (by simpa [iterUrl] using h.symm)
      · exact hf1 (i + 1) (by omega) h
    have hf2' : ∀ i j, i < j → j < n →
        iterUrl resolve ell i (nextUrl resolve ell url)
          ≠ iterUrl resolve ell j (nextUrl resolve ell url) := by
      intro i j hij hj
      have e1 : iterUrl resolve ell i (nextUrl resolve ell url)
          = iterUrl resolve ell (i + 1) url := rfl
      have e2 : iterUrl resolve ell j (nextUrl resolve ell url)
          = iterUrl resolve ell (j + 1) url := rfl
      rw [e1, e2]
      exact hf2 (i + 1) (j + 1) (by omega) (by omega)
    rw [ih (url :: visited) (resolve (ell url) url) hf1' hf2']
    simp [List.range_succ_eq_map, List.map_map, Function.comp, iterUrl, nextUrl]

/-- Claim C5: against a server that answers every fetch with a 302 to a
fresh, never-before-visited URL, `classify` returns `REDIRECT_LOOP` after
exactly 5 fetches / 5 redirect hops — the trace is exactly the first five
URLs of the chain — and the 6th URL of the chain is never fetched. -/
theorem c5_redirect_exhaustion (dns4 dns6 : String → Bool) (net : String → NetEvent)
    (resolve : String → String → String) (ell bdy : String → String) (d : String)
    (hres : dns4 d = true)
    (hnet : ∀ u, net u = NetEvent.respEv 302 (some (ell u)) (bdy u))
    (hne : ∀ u, ¬ ell u = "")
    (hdist : ∀ i, i < 6 → ∀ j, j < 6 → i < j →
      iterUrl resolve ell i ("https://" ++ d) ≠ iterUrl resolve ell j ("https://" ++ d)) :
    checkDomain dns4 dns6 net resolve d =
      ({ domain := d, status := Status.REDIRECT_LOOP, resolvable := true,
         accessible := false },
       (List.range 5).map (fun i => iterUrl resolve ell i ("https://" ++ d))) ∧
    iterUrl resolve ell 5 ("https://" ++ d) ∉
      (List.range 5).map (fun i => iterUrl resolve ell i ("https://" ++ d)) := by
  have hchain := fresh_redirect_chain net resolve ell bdy hnet hne 5 [] ("https://" ++ d)
    (fun i _ => List.not_mem_nil _)
    (fun i j hij hj => hdist i (by omega) j (by omega) hij)
  constructor
  · rw [checkDomain_resolved dns4 dns6 net resolve d hres]
    have h1 : checkDomainStatus net resolve d =
        (Status.REDIRECT_LOOP,
         (List.range 5).map (fun i => iterUrl resolve ell i ("https://" ++ d))) := hchain
    rw [h1]
    simp
  · intro hmem
    simp only [List.mem_map, List.mem_range] at hmem
    obtain ⟨i, hi, hieq⟩ := hmem
    exact hdist i (by omega) 5 (by omega) (by omega) hieq

theorem c5_witness :
    checkDomain dnsYes dnsYes (netResp 302 (some "x") "") resolveAppend "d" =
      ({ domain := "d", status := Status.REDIRECT_LOOP, resolvable := true,
         accessible := false },
       ["https://d", "https://dx", "https://dxx", "https://dxxx", "https://dxxxx"]) ∧
    "https://dxxxxx" ∉
      ["https://d", "https://dx", "https://dxx", "https://dxxx", "https://dxxxx"] := by
  have h := c5_redirect_exhaustion dnsYes dnsYes (netResp 302 (some "x") "") resolveAppend
    (fun _ => "x") (fun _ => "") "d" rfl (fun _ => rfl)
    (fun _ => by show ¬ "x" = ""; decide) (by decide)
  exact h

/-- First-fetch specialisation: a 5xx first response settles the probe. -/
theorem checkDomainStatus_server (net : String → NetEvent) (resolve : String → String → String)
    (d : String) (sc : Nat) (loc : Option String) (body : String)
    (hnet : net ("https://" ++ d) = NetEvent.respEv sc loc body) (h5 : 500 ≤ sc) :
    checkDomainStatus net resolve d = (Status.SERVER_ERROR, ["https://" ++ d]) := by
  show runAttempt (fetchUrl net) resolve (4 + 1) [] ("https://" ++ d) = _
  exact runAttempt_server (fetchUrl net) resolve 4 [] ("https://" ++ d) sc loc body
    (List.not_mem_nil _) (by simp [fetchUrl, hnet]) h5

/-- First-fetch specialisation: a 4xx first response settles the probe. -/
theorem checkDomainStatus_client (net : String → NetEvent) (resolve : String → String → String)
    (d : String) (sc : Nat) (loc : Option String) (body : String)
    (hnet : net ("https://" ++ d) = NetEvent.respEv sc loc body)
    (h5 : ¬ 500 ≤ sc) (h4 : 400 ≤ sc) :
    checkDomainStatus net resolve d = (Status.CLIENT_ERROR, ["https://" ++ d]) := by
  show runAttempt (fetchUrl net) resolve (4 + 1) [] ("https://" ++ d) = _
  exact runAttempt_client (fetchUrl net) resolve 4 [] ("https://" ++ d) sc loc body
    (List.not_mem_nil _) (by simp [fetchUrl, hnet]) h5 h4

/-- First-fetch specialisation: a non-error, non-redirect first response is
classified by its body. -/
theorem checkDomainStatus_content (net : String → NetEvent) (resolve : String → String → String)
    (d : String) (sc : Nat) (loc : Option String) (body : String)
    (hnet : net ("https://" ++ d) = NetEvent.respEv sc loc body)
    (h5 : ¬ 500 ≤ sc) (h4 : ¬ 400 ≤ sc)
    (hnr : ¬ (300 ≤ sc ∧ sc < 400 ∧ locTruthy loc = true)) :
    checkDomainStatus net resolve d = (classifyBody body, ["https://" ++ d]) := by
  show runAttempt (fetchUrl net) resolve (4 + 1) [] ("https://" ++ d) = _
  exact runAttempt_content (fetchUrl net) resolve 4 [] ("https://" ++ d) sc loc body
    (List.not_mem_nil _) (by simp [fetchUrl, hnet]) h5 h4 hnr

/-- Claim C6: status-code boundaries.  A 399 response without a `Location`
header is not treated as a redirect and falls through to content
classification (`classifyBody`, which yields `VALID` when no pattern
applies); a response with statusCode exactly 500 yields `SERVER_ERROR`; one
with exactly 400 yields `CLIENT_ERROR` — both boundaries inclusive, whatever
the `Location` header. -/
theorem c6_status_boundaries (dns4 dns6 : String → Bool) (net : String → NetEvent)
    (resolve : String → String → String) (d body : String) (loc : Option String)
    (hres : dns4 d = true) :
    (net ("https://" ++ d) = NetEvent.respEv 399 none body →
      checkDomain dns4 dns6 net resolve d =
        ({ domain := d, status := classifyBody body, resolvable := true,
           accessible := decide (classifyBody body = Status.VALID) }, ["https://" ++ d])) ∧
    (net ("https://" ++ d) = NetEvent.respEv 500 loc body →
      checkDomain dns4 dns6 net resolve d =
        ({ domain := d, status := Status.SERVER_ERROR, resolvable := true,
           accessible := false }, ["https://" ++ d])) ∧
    (net ("https://" ++ d) = NetEvent.respEv 400 loc body →
      checkDomain dns4 dns6 net resolve d =
        ({ domain := d, status := Status.CLIENT_ERROR, resolvable := true,
           accessible := false }, ["https://" ++ d])) := by
  refine ⟨?_, ?_, ?_⟩
  · intro hnet
    rw [checkDomain_resolved dns4 dns6 net resolve d hres,
      checkDomainStatus_content net resolve d 399 none body hnet (by omega) (by omega)
        (by simp [locTruthy])]
  · intro hnet
    rw [checkDomain_resolved dns4 dns6 net resolve d hres,
      checkDomainStatus_server net resolve d 500 loc body hnet (by omega)]
    simp
  · intro hnet
    rw [checkDomain_resolved dns4 dns6 net resolve d hres,
      checkDomainStatus_client net resolve d 400 loc body hnet (by omega) (by omega)]
    simp

theorem c6_witness :
    checkDomain dnsYes dnsYes (netResp 399 none plainBody) resolveBack "b.example" =
      ({ domain := "b.example", status := Status.VALID, resolvable := true,
         accessible := true }, ["https://b.example"]) ∧
    checkDomain dnsYes dnsYes (netResp 500 (some "next") "") resolveBack "b.example" =
      ({ domain := "b.example", status := Status.SERVER_ERROR, resolvable := true,
         accessible := false }, ["https://b.example"]) ∧
    checkDomain dnsYes dnsYes (netResp 400 (some "next") "") resolveBack "b.example" =
      ({ domain := "b.example", status := Status.CLIENT_ERROR, resolvable := true,
         accessible := false }, ["https://b.example"]) := by
  refine ⟨?_, ?_, ?_⟩
  · have h := (c6_status_boundaries dnsYes dnsYes (netResp 399 none plainBody) resolveBack
      "b.example" plainBody none rfl).1 rfl
    have e : classifyBody plainBody = Status.VALID := by decide
    rw [e] at h
    simpa using h
  · exact (c6_status_boundaries dnsYes dnsYes (netResp 500 (some "next") "") resolveBack
      "b.example" "" (some "next") rfl).2.1 rfl
  · exact (c6_status_boundaries dnsYes dnsYes (netResp 400 (some "next") "") resolveBack
      "b.example" "" (some "next") rfl).2.2 rfl

/-- Claim C7, counterexample: a 200 response whose body carries both
Cloudflare error-wrapper markers and the text `"Error 521"` — but only
inside a `<head>` block — is classified `EMPTY_PAGE`, not `SERVER_ERROR`,
because `checkDomainStatus` runs the empty/JS-only check (line 187) before
the Cloudflare check (line 194). -/
theorem c7_counterexample :
    containsSub cfHiddenBody "id=\"cf-wrapper\"" = true ∧
    containsSub cfHiddenBody "id=\"cf-error-details\"" = true ∧
    containsSub cfHiddenBody "Error 521" = true ∧
    checkDomain dnsYes dnsYes (netResp 200 none cfHiddenBody) resolveBack "cf.example" =
      ({ domain := "cf.example", status := Status.EMPTY_PAGE, resolvable := true,
         accessible := false }, ["https://cf.example"]) ∧
    Status.EMPTY_PAGE ≠ Status.SERVER_ERROR := by
  refine ⟨by decide, by decide, by decide, by decide, by decide⟩

/-- Claim C7 as amended: for every 2xx non-redirect response whose body is
not classified empty/JS-only and contains both Cloudflare error-wrapper
markers together with `"Error 521"`, `classify` returns `SERVER_ERROR` (and
therefore never `PROTECTED`) for that response. -/
theorem c7_cloudflare_error (dns4 dns6 : String → Bool) (net : String → NetEvent)
    (resolve : String → String → String) (d : String) (sc : Nat) (loc : Option String)
    (body : String) (hres : dns4 d = true)
    (hnet : net ("https://" ++ d) = NetEvent.respEv sc loc body)
    (hsc : 200 ≤ sc ∧ sc < 300)
    (hempty : isEmptyOrJsOnly body = none)
    (hw : containsSub body "id=\"cf-wrapper\"" = true)
    (hd : containsSub body "id=\"cf-error-details\"" = true)
    (he : containsSub body "Error 521" = true) :
    checkDomain dns4 dns6 net resolve d =
      ({ domain := d, status := Status.SERVER_ERROR, resolvable := true,
         accessible := false }, ["https://" ++ d]) := by
  have hcb : classifyBody body = Status.SERVER_ERROR := by
    simp [classifyBody, hempty, hw, hd, ERROR_PAGE_PATTERNS, he]
  rw [checkDomain_resolved dns4 dns6 net resolve d hres,
    checkDomainStatus_content net resolve d sc loc body hnet (by omega) (by omega)
      (fun h => absurd h.1 (by omega))]
  rw [hcb]
  simp

theorem c7_witness :
    isEmptyOrJsOnly cfVisibleBody = none ∧
    checkDomain dnsYes dnsYes (netResp 200 none cfVisibleBody) resolveBack "cf2.example" =
      ({ domain := "cf2.example", status := Status.SERVER_ERROR, resolvable := true,
         accessible := false }, ["https://cf2.example"]) :=
  ⟨by decide,
   c7_cloudflare_error dnsYes dnsYes (netResp 200 none cfVisibleBody) resolveBack
     "cf2.example" 200 none cfVisibleBody rfl rfl (by omega) (by decide) (by decide)
     (by decide) (by decide)⟩

/-- Claim C8: on a 2xx non-redirect response, if the body stripped of
`<head>` blocks, `<noscript>` blocks and whitespace is empty and the
concatenated `<script>` content is empty, `classify` returns `EMPTY_PAGE`;
with the same empty stripped body but non-empty script content it returns
`JS_ONLY`. -/
theorem c8_empty_or_jsonly (dns4 dns6 : String → Bool) (net : String → NetEvent)
    (resolve : String → String → String) (d : String) (sc : Nat) (loc : Option String)
    (body : String) (hres : dns4 d = true)
    (hnet : net ("https://" ++ d) = NetEvent.respEv sc loc body)
    (hsc : 200 ≤ sc ∧ sc < 300) :
    (strippedOf body = "" → scriptContentOf body = "" →
      checkDomain dns4 dns6 net resolve d =
        ({ domain := d, status := Status.EMPTY_PAGE, resolvable := true,
           accessible := false }, ["https://" ++ d])) ∧
    (strippedOf body = "" → ¬ scriptContentOf body = "" →
      checkDomain dns4 dns6 net resolve d =
        ({ domain := d, status := Status.JS_ONLY, resolvable := true,
           accessible := false }, ["https://" ++ d])) := by
  have hlift : ∀ s : Status, classifyBody body = s →
      checkDomain dns4 dns6 net resolve d =
        ({ domain := d, status := s, resolvable := true,
           accessible := decide (s = Status.VALID) }, ["https://" ++ d]) := by
    intro s hs
    rw [checkDomain_resolved dns4 dns6 net resolve d hres,
      checkDomainStatus_content net resolve d sc loc body hnet (by omega) (by omega)
        (fun h => absurd h.1 (by omega))]
    rw [hs]
  constructor
  · intro hstrip hscript
    have hio : isEmptyOrJsOnly body = some Status.EMPTY_PAGE := by
      by_cases hb : body = "" <;> simp [isEmptyOrJsOnly, hb, hstrip, hscript]
    have hcb : classifyBody body = Status.EMPTY_PAGE := by
      simp [classifyBody, hio]
    simpa using hlift Status.EMPTY_PAGE hcb
  · intro hstrip hscript
    have hb : ¬ body = "" := by
      intro hb
      exact hscript (by rw [hb]; rfl)
    have hio : isEmptyOrJsOnly body = some Status.JS_ONLY := by
      simp [isEmptyOrJsOnly, hb, hstrip, hscript]
    have hcb : classifyBody body = Status.JS_ONLY := by
      simp [classifyBody, hio]
    simpa using hlift Status.JS_ONLY hcb

theorem c8_witness :
    strippedOf emptyBody = "" ∧ scriptContentOf emptyBody = "" ∧
    checkDomain dnsYes dnsYes (netResp 200 none emptyBody) resolveBack "e.example" =
      ({ domain := "e.example", status := Status.EMPTY_PAGE, resolvable := true,
         accessible := false }, ["https://e.example"]) ∧
    strippedOf jsOnlyBody = "" ∧ ¬ scriptContentOf jsOnlyBody = "" ∧
    checkDomain dnsYes dnsYes (netResp 200 none jsOnlyBody) resolveBack "j.example" =
      ({ domain := "j.example", status := Status.JS_ONLY, resolvable := true,
         accessible := false }, ["https://j.example"]) :=
  ⟨by decide, by decide,
   (c8_empty_or_jsonly dnsYes dnsYes (netResp 200 none emptyBody) resolveBack "e.example"
     200 none emptyBody rfl rfl (by omega)).1 (by decide) (by decide),
   by decide, by decide,
   (c8_empty_or_jsonly dnsYes dnsYes (netResp 200 none jsOnlyBody) resolveBack "j.example"
     200 none jsOnlyBody rfl rfl (by omega)).2 (by decide) (by decide)⟩

/-- Claim C9: a 200 response whose body contains the exact text
`"This domain is parked"` and matches no earlier-precedence category
(not empty/JS-only, no Cloudflare wrapper pair, no Ray ID, no WAF phrase)
is classified `PLACEHOLDER`. -/
theorem c9_placeholder (dns4 dns6 : String → Bool) (net : String → NetEvent)
    (resolve : String → String → String) (d : String) (loc : Option String) (body : String)
    (hres : dns4 d = true)
    (hnet : net ("https://" ++ d) = NetEvent.respEv 200 loc body)
    (hempty : isEmptyOrJsOnly body = none)
    (hcf : (containsSub body "id=\"cf-wrapper\""
            && containsSub body "id=\"cf-error-details\"") = false)
    (hray : containsSub body "Cloudflare Ray ID" = false)
    (hwaf : WAF_PATTERNS.any (fun p => containsSub body p) = false)
    (hpark : containsSub body "This domain is parked" = true) :
    checkDomain dns4 dns6 net resolve d =
      ({ domain := d, status := Status.PLACEHOLDER, resolvable := true,
         accessible := false }, ["https://" ++ d]) := by
  have hcb : classifyBody body = Status.PLACEHOLDER := by
    simp [classifyBody, hempty, hcf, hray, hwaf, PLACEHOLDER_PATTERNS, hpark]
  rw [checkDomain_resolved dns4 dns6 net resolve d hres,
    checkDomainStatus_content net resolve d 200 loc body hnet (by omega) (by omega)
      (fun h => absurd h.1 (by omega))]
  rw [hcb]
  simp

theorem c9_witness :
    isEmptyOrJsOnly parkedBody = none ∧
    checkDomain dnsYes dnsYes (netResp 200 none parkedBody) resolveBack "park.example" =
      ({ domain := "park.example", status := Status.PLACEHOLDER, resolvable := true,
         accessible := false }, ["https://park.example"]) :=
  ⟨by decide,
   c9_placeholder dnsYes dnsYes (netResp 200 none parkedBody) resolveBack "park.example"
     none parkedBody rfl rfl (by decide) (by decide) (by decide) (by decide) (by decide)⟩

/-- Claim C3 (settled on the revision that implements the fallback,
`Part000.isDomainAccessible`, cited by the claim): when the whole HTTPS
attempt raises, the classifier proceeds to the HTTP attempt instead of
failing — the HTTP URL is fetched and its response classified — and when
both protocol attempts raise, `classify` returns `UNREACHABLE` with
`resolvable = true`, `accessible = false`. -/
theorem c3_protocol_fallback (dns4 dns6 : String → Bool)
    (fetch : String → Except Unit Part000.Outcome) (resolve : String → String → String)
    (d body : String) (hres : dns4 d = true)
    (hhttps : fetch ("https://" ++ d) = Except.error ()) :
    (fetch ("http://" ++ d) = Except.ok (Part000.Outcome.respEv 200 none body) →
      Part000.checkDomain dns4 dns6 fetch resolve d =
        ({ domain := d, status := Part000.classifyBody000 body, resolvable := true,
           accessible := decide (Part000.classifyBody000 body = Status.VALID) },
         ["http://" ++ d])) ∧
    (fetch ("http://" ++ d) = Except.error () →
      Part000.checkDomain dns4 dns6 fetch resolve d =
        ({ domain := d, status := Status.UNREACHABLE, resolvable := true,
           accessible := false }, [])) := by
  have hA : Part000.attempt fetch resolve true MAX_REDIRECTS [] ("https://" ++ d)
      = Except.error () := by
    show Part000.attempt fetch resolve true (4 + 1) [] ("https://" ++ d) = _
    simp [Part000.attempt, hhttps]
  constructor
  · intro hhttp
    have hB : Part000.attempt fetch resolve false MAX_REDIRECTS [] ("http://" ++ d)
        = Except.ok (Part000.classifyBody000 body, ["http://" ++ d]) := by
      show Part000.attempt fetch resolve false (4 + 1) [] ("http://" ++ d) = _
      simp [Part000.attempt, hhttp, locTruthy]
    simp [Part000.checkDomain, hres, Part000.isDomainAccessible, hA, hB]
  · intro hhttp
    have hB : Part000.attempt fetch resolve false MAX_REDIRECTS [] ("http://" ++ d)
        = Except.error () := by
      show Part000.attempt fetch resolve false (4 + 1) [] ("http://" ++ d) = _
      simp [Part000.attempt, hhttp]
    simp [Part000.checkDomain, hres, Part000.isDomainAccessible, hA, hB]

theorem c3_witness :
    Part000.checkDomain dnsYes dnsYes fetch000HttpOnly resolveBack "fallback.example" =
      ({ domain := "fallback.example", status := Status.VALID, resolvable := true,
         accessible := true }, ["http://fallback.example"]) ∧
    Part000.checkDomain dnsYes dnsYes fetch000None resolveBack "fallback.example" =
      ({ domain := "fallback.example", status := Status.UNREACHABLE, resolvable := true,
         accessible := false }, []) := by
  constructor
  · have h := (c3_protocol_fallback dnsYes dnsYes fetch000HttpOnly resolveBack
      "fallback.example" part000GoodBody rfl rfl).1 rfl
    have e : Part000.classifyBody000 part000GoodBody = Status.VALID := by decide
    rw [e] at h
    simpa using h
  · exact (c3_protocol_fallback dnsYes dnsYes fetch000None resolveBack
      "fallback.example" "" rfl rfl).2 rfl
